import Mathlib

/-!
Verification of the notification-controller event server and notifier code.

The definitions below are shallow embeddings, translated from the Go source:
  - internal/server event handling (handleEvent, getAllAlertsForEvent,
    filterAlertsForEvent, eventMatchesAlertSources, messageIsExcluded,
    eventMatchesAlert, cleanupMetadata, inList, createNotifier),
  - api/v1beta2 receiver types (Receiver.GetWebhookPath),
  - internal/notifier/cdevents.go (CDEvents.Post payload mapping and
    error handling).

Go strings are modeled as Lean String (exact for the ASCII data the
theorems evaluate; byte-level operations note their caveats in place).
Go maps used as read-only key/value data are modeled as association
lists.  Effectful collaborators (the Kubernetes client, the regex
engine, url.Parse, yaml.Unmarshal, the x509 pool, the notifier
factory) are passed in as explicit function parameters, so every
definition stays a pure, executable function of its inputs.
-/

/-! ## Data model: events and alerts -/

/-- Involved object of an event (the fields the server code reads from
corev1.ObjectReference). -/
structure ObjectReference where
  kind : String
  «namespace» : String
  name : String
  uid : String
  apiVersion : String
deriving DecidableEq, Repr

/-- Ingress event (eventv1.Event); fields not read by the verified code
(timestamp, reporting controller and instance) are omitted.  Metadata is
an association list standing for the Go string map. -/
structure Event where
  involvedObject : ObjectReference
  severity : String
  message : String
  reason : String
  metadata : List (String × String)
deriving DecidableEq, Repr

/-- Event source selector (apiv1.CrossNamespaceObjectReference).
matchLabels is none for a nil Go map and some for a present map. -/
structure CrossNamespaceObjectReference where
  kind : String
  name : String
  «namespace» : String
  matchLabels : Option (List (String × String))
deriving DecidableEq, Repr

/-- AlertSpec as read by the event server. -/
structure AlertSpec where
  providerRef : String
  eventSources : List CrossNamespaceObjectReference
  eventSeverity : String
  exclusionList : List String
  summary : String
  suspend : Bool
deriving DecidableEq, Repr

/-- Alert object: object metadata (name, namespace) plus spec. -/
structure Alert where
  name : String
  «namespace» : String
  spec : AlertSpec
deriving DecidableEq, Repr

/-- Severity constant eventv1.EventSeverityInfo. -/
def EventSeverityInfo : String := "info"

/-- Metadata key constant eventv1.MetaChecksumKey. -/
def MetaChecksumKey : String := "checksum"

/-- First value bound to a key in an association list; models reading a
Go map. -/
def lookupVal (m : List (String × String)) (k : String) : Option String :=
  (m.find? (fun kv => kv.1 == k)).map (fun kv => kv.2)

/-- Label-selector matching for a pure matchLabels selector: every
required key must be present with the required value (the semantics of
metav1.LabelSelectorAsSelector on a MatchLabels-only selector). -/
def labelsMatch (required : List (String × String)) (objLabels : List (String × String)) : Bool :=
  required.all (fun kv => lookupVal objLabels kv.1 == some kv.2)

/-! ## Event-to-alert matcher (server/event_server.go)

The store parameter models the kubeClient partial-metadata Get used for
matchLabels: given namespace and name it returns the labels of the live
object.  In the source a failed Get is logged and leaves the object
zero-valued, whose label set is empty, so a failed fetch is modeled as
the store returning the empty list. -/

/-- eventMatchesAlert: translated from the source, one early return per
guard, in source order (namespace/kind, severity, name, matchLabels). -/
def eventMatchesAlert (store : String → String → List (String × String))
    (event : Event) (source : CrossNamespaceObjectReference) (severity : String) : Bool :=
  if event.involvedObject.«namespace» != source.«namespace» ||
      event.involvedObject.kind != source.kind then
    false
  else if event.severity != severity && severity != EventSeverityInfo then
    false
  else if source.name != "*" && source.name != event.involvedObject.name then
    false
  else
    match source.matchLabels with
    | none => true
    | some ml => labelsMatch ml (store event.involvedObject.«namespace» event.involvedObject.name)

/-- eventMatchesAlertSources: the source namespace defaults to the
alert's namespace when empty, then any source may match. -/
def eventMatchesAlertSources (store : String → String → List (String × String))
    (event : Event) (alert : Alert) : Bool :=
  alert.spec.eventSources.any (fun source =>
    let source := if source.«namespace» == "" then { source with «namespace» := alert.«namespace» } else source
    eventMatchesAlert store event source alert.spec.eventSeverity)

/-- Loop body of messageIsExcluded: for each entry, a successful compile
followed by a match returns true at once; a failed compile is logged and
skipped, and the remaining entries are still tried.  The compile
parameter models regexp.Compile, returning some matcher on success and
none on a compilation error. -/
def exclusionLoop (compile : String → Option (String → Bool)) (msg : String) :
    List String → Bool
  | [] => false
  | exp :: rest =>
    match compile exp with
    | some r => if r msg then true else exclusionLoop compile msg rest
    | none => exclusionLoop compile msg rest

/-- messageIsExcluded: empty exclusion list short-circuits to false,
otherwise the entries are scanned in order. -/
def messageIsExcluded (compile : String → Option (String → Bool))
    (msg : String) (exclusionList : List String) : Bool :=
  if exclusionList.length = 0 then false
  else exclusionLoop compile msg exclusionList

/-- filterAlertsForEvent: drop suspended alerts, keep alerts one of
whose sources matches the event and whose exclusion list does not
exclude the event message, preserving list order. -/
def filterAlertsForEvent (compile : String → Option (String → Bool))
    (store : String → String → List (String × String))
    (alerts : List Alert) (event : Event) : List Alert :=
  alerts.filter (fun alert =>
    !alert.spec.suspend &&
    eventMatchesAlertSources store event alert &&
    !messageIsExcluded compile event.message alert.spec.exclusionList)

/-- The matcher predicate of eventMatchesAlert with the severity guard
removed: namespace, kind, name and matchLabels only.  Stated from the
specification to compare against the source predicate. -/
def eventMatchesAlertIgnoringSeverity (store : String → String → List (String × String))
    (event : Event) (source : CrossNamespaceObjectReference) : Bool :=
  if event.involvedObject.«namespace» != source.«namespace» ||
      event.involvedObject.kind != source.kind then
    false
  else if source.name != "*" && source.name != event.involvedObject.name then
    false
  else
    match source.matchLabels with
    | none => true
    | some ml => labelsMatch ml (store event.involvedObject.«namespace» event.involvedObject.name)

/-! ## Metadata cleanup (server/event_server.go cleanupMetadata, inList)

Byte-level Go string operations (HasPrefix, TrimPrefix, ToLower) are
modeled structurally over the character lists of Lean strings; this is
exact for ASCII data.  strings.EqualFold is modeled by lowercase
comparison, exact on ASCII. -/

/-- strings.HasPrefix over character lists. -/
def hasPrefixStr (s pre : String) : Bool :=
  pre.data.isPrefixOf s.data

/-- strings.ToLower over character lists (exact on ASCII). -/
def strToLower (s : String) : String :=
  String.mk (s.data.map Char.toLower)

/-- Case folding comparison: models strings.EqualFold (exact on ASCII). -/
def eqFold (a b : String) : Bool := strToLower a == strToLower b

/-- inList: membership under strings.EqualFold. -/
def inList (l : List String) (i : String) : Bool :=
  l.any (fun v => eqFold v i)

/-- strings.TrimPrefix: drop the prefix when present, otherwise return
the string unchanged. -/
def trimPrefixOf (s pre : String) : String :=
  if hasPrefixStr s pre then String.mk (s.data.drop pre.data.length) else s

/-- Group of the involved object, as computed by
schema.FromAPIVersionAndKind from the apiVersion string: the part
before the slash when the string contains exactly one slash, and empty
otherwise (no slash means a bare version; more than one slash is a
parse error swallowed into the empty group). -/
def groupFromAPIVersion (apiVersion : String) : String :=
  if apiVersion.data.countP (fun x => x == '/') = 1 then
    String.mk (apiVersion.data.takeWhile (fun x => x != '/'))
  else ""

/-- cleanupMetadata: keep a metadata entry exactly when its key has the
involved-object group as a (slash-free) prefix and is not, under case
folding, the single exclude-list entry group/checksum; a kept key has a
leading group-slash prefix trimmed.  The Go map write is modeled as an
association list in iteration order, and the nil/empty Go map guard
collapses because filtering the empty list is the empty list. -/
def cleanupMetadata (event : Event) : Event :=
  let group := groupFromAPIVersion event.involvedObject.apiVersion
  let excludeList := [group ++ "/" ++ MetaChecksumKey]
  let meta := event.metadata.filterMap (fun kv =>
    if hasPrefixStr kv.1 group && !inList excludeList kv.1 then
      some (trimPrefixOf kv.1 (group ++ "/"), kv.2)
    else
      none)
  { event with metadata := meta }

/-- The metadata filter that claim C5 describes, stated from the
specification text: keep exactly the keys that start with group-slash
and are not equal to group/checksum, stripping the group-slash prefix.
Kept to compare with the source definition cleanupMetadata. -/
def cleanupMetadataSpecDescribed (event : Event) : List (String × String) :=
  let group := groupFromAPIVersion event.involvedObject.apiVersion
  event.metadata.filterMap (fun kv =>
    if hasPrefixStr kv.1 (group ++ "/") && kv.1 != group ++ "/" ++ MetaChecksumKey then
      some (trimPrefixOf kv.1 (group ++ "/"), kv.2)
    else
      none)

/-! ## Receiver webhook path (api/v1beta2/receiver_types.go)

GetWebhookPath returns ReceiverWebhookPath followed by the "%x"
formatting (lowercase hex) of sha256.Sum256 of the UTF-8 bytes of
token + name + namespace.  SHA-256 is implemented below from
FIPS 180-4 over byte lists represented as Nat lists, with 32-bit words
kept reduced modulo 2^32. -/

/-- UTF-8 encoding of one character as byte values; models the Go
string-to-byte-slice conversion. -/
def utf8Bytes (c : Char) : List Nat :=
  let n := c.toNat
  if n < 128 then [n]
  else if n < 2048 then [192 + n / 64, 128 + n % 64]
  else if n < 65536 then [224 + n / 4096, 128 + (n / 64) % 64, 128 + n % 64]
  else [240 + n / 262144, 128 + (n / 4096) % 64, 128 + (n / 64) % 64, 128 + n % 64]

/-- UTF-8 bytes of a string. -/
def strBytes (s : String) : List Nat :=
  s.data.flatMap utf8Bytes

/-- Reduce to a 32-bit word. -/
def w32 (n : Nat) : Nat := n % 4294967296

/-- Right rotation of a 32-bit word. -/
def rotr32 (x n : Nat) : Nat := w32 ((x >>> n) ||| (x <<< (32 - n)))

/-- SHA-256 big sigma-0. -/
def bigSigma0 (x : Nat) : Nat := rotr32 x 2 ^^^ rotr32 x 13 ^^^ rotr32 x 22

/-- SHA-256 big sigma-1. -/
def bigSigma1 (x : Nat) : Nat := rotr32 x 6 ^^^ rotr32 x 11 ^^^ rotr32 x 25

/-- SHA-256 small sigma-0. -/
def smallSigma0 (x : Nat) : Nat := rotr32 x 7 ^^^ rotr32 x 18 ^^^ (x >>> 3)

/-- SHA-256 choose function; complement taken within 32 bits. -/
def chNat (x y z : Nat) : Nat := (x &&& y) ^^^ ((x ^^^ 4294967295) &&& z)

/-- SHA-256 small sigma-1. -/
def smallSigma1 (x : Nat) : Nat := rotr32 x 17 ^^^ rotr32 x 19 ^^^ (x >>> 10)

/-- SHA-256 majority function. -/
def majNat (x y z : Nat) : Nat := (x &&& y) ^^^ (x &&& z) ^^^ (y &&& z)

/-- SHA-256 round constants of FIPS 180-4, written in decimal. -/
def sha256K : List Nat :=
  [1116352408, 1899447441, 3049323471, 3921009573, 961987163,
   1508970993, 2453635748, 2870763221, 3624381080, 310598401,
   607225278, 1426881987, 1925078388, 2162078206, 2614888103,
   3248222580, 3835390401, 4022224774, 264347078, 604807628,
   770255983, 1249150122, 1555081692, 1996064986, 2554220882,
   2821834349, 2952996808, 3210313671, 3336571891, 3584528711,
   113926993, 338241895, 666307205, 773529912, 1294757372,
   1396182291, 1695183700, 1986661051, 2177026350, 2456956037,
   2730485921, 2820302411, 3259730800, 3345764771, 3516065817,
   3600352804, 4094571909, 275423344, 430227734, 506948616,
   659060556, 883997877, 958139571, 1322822218, 1537002063,
   1747873779, 1955562222, 2024104815, 2227730452, 2361852424,
   2428436474, 2756734187, 3204031479, 3329325298]

/-- SHA-256 initial hash value of FIPS 180-4, written in decimal. -/
def sha256H0 : List Nat :=
  [1779033703, 3144134277, 1013904242, 2773480762, 1359893119,
   2600822924, 528734635, 1541459225]

/-- SHA-256 padding: append 0x80, zero bytes up to 56 mod 64, and the
bit length as eight big-endian bytes. -/
def sha256Pad (msg : List Nat) : List Nat :=
  let len := msg.length
  let padLen := (55 + 64 - len % 64) % 64
  msg ++ 128 :: List.replicate padLen 0 ++
    (List.range 8).map (fun i => ((len * 8) >>> (8 * (7 - i))) % 256)

/-- Split a padded message into 64-byte blocks. -/
def sha256Blocks (padded : List Nat) : List (List Nat) :=
  (List.range (padded.length / 64)).map (fun i => (padded.drop (64 * i)).take 64)

/-- Big-endian word from bytes. -/
def bytesToWord (bs : List Nat) : Nat :=
  bs.foldl (fun acc b => acc * 256 + b) 0

/-- SHA-256 message schedule: 16 input words extended to 64. -/
def sha256Schedule (block : List Nat) : List Nat :=
  let w0 := (List.range 16).map (fun i => bytesToWord ((block.drop (4 * i)).take 4))
  (List.range 48).foldl (fun w _ =>
    let n := w.length
    w ++ [w32 (smallSigma1 (w.getD (n - 2) 0) + w.getD (n - 7) 0 +
               smallSigma0 (w.getD (n - 15) 0) + w.getD (n - 16) 0)]) w0

/-- SHA-256 compression of one block into the running hash. -/
def sha256Compress (h : List Nat) (block : List Nat) : List Nat :=
  let ws := sha256Schedule block
  let fin := (List.range 64).foldl (fun st i =>
    match st with
    | [a, b, c, d, e, f, g, hh] =>
      let t1 := w32 (hh + bigSigma1 e + chNat e f g + sha256K.getD i 0 + ws.getD i 0)
      let t2 := w32 (bigSigma0 a + majNat a b c)
      [w32 (t1 + t2), a, b, c, w32 (d + t1), e, f, g]
    | other => other) h
  (h.zip fin).map (fun p => w32 (p.1 + p.2))

/-- SHA-256 digest of a byte list, as 32 byte values. -/
def sha256 (msg : List Nat) : List Nat :=
  let hs := (sha256Blocks (sha256Pad msg)).foldl sha256Compress sha256H0
  hs.flatMap (fun wd => (List.range 4).map (fun i => (wd >>> (8 * (3 - i))) % 256))

/-- Lowercase hex digit. -/
def hexChar (n : Nat) : Char :=
  Char.ofNat (if n < 10 then 48 + n else 87 + n)

/-- Lowercase hex of one byte, two digits. -/
def hexByte (b : Nat) : List Char :=
  [hexChar (b / 16), hexChar (b % 16)]

/-- Lowercase hex string of a byte list; models the Go "%x" verb. -/
def hexBytes (bs : List Nat) : String :=
  String.mk (bs.flatMap hexByte)

/-- Path prefix constant ReceiverWebhookPath. -/
def ReceiverWebhookPath : String := "/hook/"

/-- The webhook path determined by a digest input string. -/
def webhookDigestPath (s : String) : String :=
  ReceiverWebhookPath ++ hexBytes (sha256 (strBytes s))

/-- Receiver.GetWebhookPath: hash of token + name + namespace behind
the fixed path prefix. -/
def GetWebhookPath (token name «namespace» : String) : String :=
  webhookDigestPath (token ++ name ++ «namespace»)

/-! ## CDEvents notifier (internal/notifier/cdevents.go)

The Post method selects a CDEvent constructor from the lower-cased
event reason, sets per-branch subject fields, then sets the common
source, custom data and subject id, and finally sends the payload with
postMessage.  The payload selection is embedded as a pure function; the
send and its error handling are embedded with the postMessage outcome
passed in as a parameter. -/

/-- The CDEvent constructor chosen by a branch of the reason switch. -/
inductive CDEventType where
  | EnvironmentModified
  | TaskRunFinished
  | TestCaseRunFinished
  | ServiceDeployed
  | IncidentDetected
deriving DecidableEq, Repr

/-- The observable payload state built by CDEvents.Post before sending:
the chosen constructor, the branch-specific subject fields, and the
common source, subject id and custom data. -/
structure CDEventPayload where
  eventType : CDEventType
  subjectOutcome : Option String := none
  subjectArtifactId : Option String := none
  subjectEnvironment : Option (String × String) := none
  source : String := ""
  subjectId : String := ""
  customData : Option Event := none
deriving DecidableEq, Repr

/-- Payload construction of CDEvents.Post: the reason switch followed by
the common setters.  subjectEnvironment carries the (id, source) pair of
the cdevents.Reference set in the reconciliationsucceeded branch. -/
def cdeventsMakePayload (event : Event) : CDEventPayload :=
  let r := strToLower event.reason
  let base : CDEventPayload :=
    if r = "installsucceeded" then
      { eventType := CDEventType.EnvironmentModified }
    else if r = "upgradesucceeded" then
      { eventType := CDEventType.TaskRunFinished, subjectOutcome := some "Success" }
    else if r = "upgradefailed" then
      { eventType := CDEventType.TaskRunFinished, subjectOutcome := some "Failure" }
    else if r = "testsucceeded" then
      { eventType := CDEventType.TestCaseRunFinished, subjectOutcome := some "Success" }
    else if r = "testfailed" then
      { eventType := CDEventType.TestCaseRunFinished, subjectOutcome := some "Success" }
    else if r = "rollbacksucceeded" then
      { eventType := CDEventType.TaskRunFinished, subjectOutcome := some "Success" }
    else if r = "rollbackfailed" then
      { eventType := CDEventType.TaskRunFinished, subjectOutcome := some "Failure" }
    else if r = "driftdetected" then
      { eventType := CDEventType.TaskRunFinished, subjectOutcome := some "Failure" }
    else if r = "reconciliationsucceeded" then
      { eventType := CDEventType.ServiceDeployed,
        subjectArtifactId := some event.involvedObject.uid,
        subjectEnvironment := some (event.involvedObject.uid, event.involvedObject.name) }
    else
      { eventType := CDEventType.IncidentDetected }
  { base with
    source := event.involvedObject.name ++ "." ++ event.involvedObject.kind,
    customData := some event,
    subjectId := event.involvedObject.uid }

/-- Error result of CDEvents.Post given the outcome of postMessage
(some error string on failure, none on success).  In the source, err1
is declared and never assigned, and the guard requires both err and
err1 to be non-nil before returning an error. -/
def cdeventsPostResult (event : Event) (postErr : Option String) : Option String :=
  let _payload := cdeventsMakePayload event
  let err := postErr
  let err1 : Option String := none
  if err.isSome && err1.isSome then
    some "postMessage failed"
  else
    none

/-! ## Notifier construction (server/event_server.go createNotifier)

Secrets are association lists from key to value string.  getSecret
models kubeClient.Get of a secret by namespace and name, none meaning a
Get error.  urlParseOk models url.Parse succeeding, yamlHeaders models
yaml.Unmarshal of the headers value, certAppendOk models
x509.CertPool.AppendCertsFromPEM, and factory models
notifier.NewFactory(...).Notifier(type) over an abstract notifier
type. -/

/-- Configuration aggregated for the notifier factory. -/
structure NotifierConfig where
  address : String
  proxy : String
  username : String
  channel : String
  token : String
  headers : List (String × String)
  certPool : Option String
  password : String
  providerUID : String
deriving DecidableEq, Repr

/-- ProviderSpec as read by createNotifier and its caller. -/
structure ProviderSpec where
  type : String
  channel : String
  username : String
  address : String
  proxy : String
  secretRef : Option String
  certSecretRef : Option String
  suspend : Bool
deriving DecidableEq, Repr

/-- Provider object: object metadata plus spec. -/
structure Provider where
  name : String
  «namespace» : String
  uid : String
  spec : ProviderSpec
deriving DecidableEq, Repr

/-- Mutable-variable state of createNotifier while secret keys are
overlaid onto the provider configuration. -/
structure SecretOverlay where
  webhook : String
  username : String
  proxy : String
  token : String
  password : String
  headers : List (String × String)
deriving DecidableEq, Repr

/-- Address step of the createNotifier secret overlay: an address key
replaces the webhook, and a parse failure aborts. -/
def overlayAddress (urlParseOk : String → Bool) (data : List (String × String))
    (st : SecretOverlay) : Except String SecretOverlay :=
  match lookupVal data "address" with
  | some address =>
    if urlParseOk address then
      Except.ok { st with webhook := address }
    else
      Except.error ("invalid address in secret: " ++ address)
  | none => Except.ok st

/-- Password step of the secret overlay. -/
def overlayPassword (data : List (String × String)) (st : SecretOverlay) : SecretOverlay :=
  match lookupVal data "password" with
  | some p => { st with password := p }
  | none => st

/-- Proxy step of the secret overlay; a parse failure aborts. -/
def overlayProxy (urlParseOk : String → Bool) (data : List (String × String))
    (st : SecretOverlay) : Except String SecretOverlay :=
  match lookupVal data "proxy" with
  | some p =>
    if urlParseOk p then
      Except.ok { st with proxy := p }
    else
      Except.error ("invalid proxy in secret: " ++ p)
  | none => Except.ok st

/-- Token step of the secret overlay. -/
def overlayToken (data : List (String × String)) (st : SecretOverlay) : SecretOverlay :=
  match lookupVal data "token" with
  | some t => { st with token := t }
  | none => st

/-- Username step of the secret overlay. -/
def overlayUsername (data : List (String × String)) (st : SecretOverlay) : SecretOverlay :=
  match lookupVal data "username" with
  | some u => { st with username := u }
  | none => st

/-- Headers step of the secret overlay; a yaml decode failure aborts. -/
def overlayHeaders (yamlHeaders : String → Option (List (String × String)))
    (data : List (String × String)) (st : SecretOverlay) : Except String SecretOverlay :=
  match lookupVal data "headers" with
  | some h =>
    match yamlHeaders h with
    | some hs => Except.ok { st with headers := hs }
    | none => Except.error "failed to read headers from secret"
  | none => Except.ok st

/-- Secret overlay phase of createNotifier, one step per secret key in
source order: address (with parse check), password, proxy (with parse
check), token, username, headers (with yaml decode); a missing key
leaves the corresponding variable unchanged, and an error aborts the
remaining steps. -/
def overlayFromSecret (urlParseOk : String → Bool)
    (yamlHeaders : String → Option (List (String × String)))
    (data : List (String × String)) (init : SecretOverlay) :
    Except String SecretOverlay :=
  match overlayAddress urlParseOk data init with
  | Except.error e => Except.error e
  | Except.ok s1 =>
    match overlayProxy urlParseOk data (overlayPassword data s1) with
    | Except.error e => Except.error e
    | Except.ok s3 =>
      overlayHeaders yamlHeaders data (overlayUsername data (overlayToken data s3))

/-- Certificate pool phase of createNotifier: read the cert secret,
require the caFile key, and append it to a fresh pool. -/
def resolveCertPool (getSecret : String → String → Option (List (String × String)))
    (certAppendOk : String → Bool) (providerNamespace : String)
    (ref : Option String) : Except String (Option String) :=
  match ref with
  | none => Except.ok none
  | some refName =>
    match getSecret providerNamespace refName with
    | none => Except.error "failed to read cert secret"
    | some data =>
      match lookupVal data "caFile" with
      | none => Except.error "failed to read secret key caFile"
      | some caFile =>
        if certAppendOk caFile then Except.ok (some caFile)
        else Except.error "could not append to cert pool"

/-- Initial overlay state of createNotifier, taken from the provider
spec with empty token, password and headers. -/
def initialOverlay (provider : Provider) : SecretOverlay :=
  { webhook := provider.spec.address, username := provider.spec.username,
    proxy := provider.spec.proxy, token := "", password := "", headers := [] }

/-- Secret phase of createNotifier: no secret reference keeps the
initial state; a failed secret read aborts; otherwise the secret keys
are overlaid. -/
def secretPhase (getSecret : String → String → Option (List (String × String)))
    (urlParseOk : String → Bool)
    (yamlHeaders : String → Option (List (String × String)))
    (provider : Provider) : Except String SecretOverlay :=
  match provider.spec.secretRef with
  | none => Except.ok (initialOverlay provider)
  | some refName =>
    match getSecret provider.«namespace» refName with
    | none => Except.error "failed to read secret"
    | some data => overlayFromSecret urlParseOk yamlHeaders data (initialOverlay provider)

/-- createNotifier: start from the provider spec, overlay the referenced
secret if any, resolve the certificate pool, reject an empty address,
and hand the aggregated configuration to the factory; returns the
sender together with the token. -/
def createNotifier {N : Type}
    (factory : String → NotifierConfig → Except String N)
    (getSecret : String → String → Option (List (String × String)))
    (urlParseOk : String → Bool)
    (yamlHeaders : String → Option (List (String × String)))
    (certAppendOk : String → Bool)
    (provider : Provider) : Except String (N × String) :=
  match secretPhase getSecret urlParseOk yamlHeaders provider with
  | Except.error e => Except.error e
  | Except.ok st =>
    match resolveCertPool getSecret certAppendOk provider.«namespace» provider.spec.certSecretRef with
    | Except.error e => Except.error e
    | Except.ok certPool =>
      if st.webhook = "" then
        Except.error "provider has no address"
      else
        match factory provider.spec.type
            { address := st.webhook, proxy := st.proxy, username := st.username,
              channel := provider.spec.channel, token := st.token, headers := st.headers,
              certPool := certPool, password := st.password, providerUID := provider.uid } with
        | Except.error _ => Except.error "failed to initialize notifier"
        | Except.ok sender => Except.ok (sender, st.token)

/-! ## Ingress dispatcher (server/event_server.go handleEvent)

The handler is embedded as a pure decision function over the outcomes
of its effectful steps: the body read, the JSON decode, and the alert
list read from the store.  It returns the written HTTP status together
with the list of alerts the dispatch loop runs over. -/

/-- HTTP status written on malformed input. -/
def statusBadRequest : Nat := 400

/-- HTTP status written on acceptance. -/
def statusAccepted : Nat := 202

/-- getAllAlertsForEvent: wrap a store listing failure, otherwise filter
the listed alerts against the event. -/
def getAllAlertsForEvent (compile : String → Option (String → Bool))
    (store : String → String → List (String × String))
    (listResult : Except String (List Alert)) (event : Event) :
    Except String (List Alert) :=
  match listResult with
  | Except.error e => Except.error ("failed listing alerts: " ++ e)
  | Except.ok items => Except.ok (filterAlertsForEvent compile store items event)

/-- handleEvent: read failure and decode failure answer 400; after the
metadata cleanup, a failed alert listing is logged and leaves the alert
slice nil; the empty and non-empty branches both answer 202, dispatch
failures being logged only. -/
def handleEvent (compile : String → Option (String → Bool))
    (store : String → String → List (String × String))
    (body : Except String String) (decode : String → Except String Event)
    (listResult : Except String (List Alert)) : Nat × List Alert :=
  match body with
  | Except.error _ => (statusBadRequest, [])
  | Except.ok b =>
    match decode b with
    | Except.error _ => (statusBadRequest, [])
    | Except.ok decoded =>
      let event := cleanupMetadata decoded
      let alerts := match getAllAlertsForEvent compile store listResult event with
        | Except.error _ => []
        | Except.ok found => found
      if alerts.isEmpty then
        (statusAccepted, [])
      else
        (statusAccepted, alerts)

/-! ## Concrete inputs used by witnesses and counterexamples -/

/-- A regex oracle on which no entry compiles. -/
def compileNone : String → Option (String → Bool) := fun _ => none

/-- A store on which every live object carries no labels. -/
def storeEmpty : String → String → List (String × String) := fun _ _ => []

/-- An active alert with a wildcard source in its own namespace. -/
def sampleAlert : Alert :=
  { name := "a1", «namespace» := "ns1",
    spec :=
      { providerRef := "slack1",
        eventSources := [{ kind := "Kustomization", name := "*", «namespace» := "ns1", matchLabels := none }],
        eventSeverity := "info", exclusionList := [], summary := "", suspend := false } }

/-- An event matching sampleAlert. -/
def sampleEvent : Event :=
  { involvedObject :=
      { kind := "Kustomization", «namespace» := "ns1", name := "podinfo",
        uid := "uid-1", apiVersion := "kustomize.toolkit.fluxcd.io/v1" },
    severity := "info", message := "reconciliation ok", reason := "ReconciliationSucceeded",
    metadata := [] }

/-- Event of group g with a metadata key that starts with the group but
not with group-slash. -/
def evGx : Event :=
  { involvedObject :=
      { kind := "HelmRelease", «namespace» := "ns1", name := "podinfo",
        uid := "u1", apiVersion := "g/v1" },
    severity := "info", message := "", reason := "", metadata := [("gx", "y")] }

/-- Event of group g whose single metadata key carries the group-slash
prefix once. -/
def evStripped : Event :=
  { involvedObject :=
      { kind := "HelmRelease", «namespace» := "ns1", name := "podinfo",
        uid := "u1", apiVersion := "g/v1" },
    severity := "info", message := "", reason := "", metadata := [("g/revision", "1.0")] }

/-- Event of group g whose single metadata key repeats the group-slash
prefix. -/
def evDoubled : Event :=
  { involvedObject :=
      { kind := "HelmRelease", «namespace» := "ns1", name := "podinfo",
        uid := "u1", apiVersion := "g/v1" },
    severity := "info", message := "", reason := "", metadata := [("g/g/x", "y")] }

/-- Event with reason TestSucceeded. -/
def evTestSucceeded : Event :=
  { involvedObject :=
      { kind := "HelmRelease", «namespace» := "ns1", name := "podinfo",
        uid := "uid-t", apiVersion := "helm.toolkit.fluxcd.io/v2beta2" },
    severity := "info", message := "test ok", reason := "TestSucceeded", metadata := [] }

/-- Event with reason TestFailed. -/
def evTestFailed : Event :=
  { involvedObject :=
      { kind := "HelmRelease", «namespace» := "ns1", name := "podinfo",
        uid := "uid-t", apiVersion := "helm.toolkit.fluxcd.io/v2beta2" },
    severity := "error", message := "test failed", reason := "TestFailed", metadata := [] }

/-- Provider with an empty address and no secret reference. -/
def providerNoAddress : Provider :=
  { name := "p1", «namespace» := "ns1", uid := "uid-p",
    spec :=
      { type := "slack", channel := "", username := "", address := "", proxy := "",
        secretRef := none, certSecretRef := none, suspend := false } }

/-- A factory that accepts every configuration, producing a unit sender. -/
def factoryAcceptAll : String → NotifierConfig → Except String Unit :=
  fun _ _ => Except.ok ()

/-- A secret store holding no secrets. -/
def getSecretNone : String → String → Option (List (String × String)) :=
  fun _ _ => none

/-- A decoder that yields sampleEvent for every body. -/
def decodeSample : String → Except String Event := fun _ => Except.ok sampleEvent

/-! ## Theorems -/

/-- C1: for every event and every list of alerts, the match set
returned by filterAlertsForEvent never contains an alert whose
Spec.Suspend field is true: every member has suspend = false. -/
theorem filterAlertsForEvent_no_suspended
    (compile : String → Option (String → Bool))
    (store : String → String → List (String × String))
    (alerts : List Alert) (event : Event) (a : Alert)
    (h : a ∈ filterAlertsForEvent compile store alerts event) :
    a.spec.suspend = false := by
  rcases List.mem_filter.mp h with ⟨-, hp⟩
  simp only [Bool.and_eq_true, Bool.not_eq_true'] at hp
  exact hp.1.1

/-- Witness for C1 at a concrete matching alert and event. -/
theorem filterAlertsForEvent_no_suspended_witness :
    sampleAlert ∈ filterAlertsForEvent compileNone storeEmpty [sampleAlert] sampleEvent ∧
      sampleAlert.spec.suspend = false :=
  ⟨by decide,
   filterAlertsForEvent_no_suspended compileNone storeEmpty [sampleAlert] sampleEvent sampleAlert
     (by decide)⟩

/-- Loop characterization for messageIsExcluded: the scan returns true
exactly when some entry compiles and matches the message. -/
theorem exclusionLoop_eq_true_iff (compile : String → Option (String → Bool)) (msg : String)
    (l : List String) :
    exclusionLoop compile msg l = true ↔
      ∃ exp ∈ l, ∃ r, compile exp = some r ∧ r msg = true := by
  induction l with
  | nil => simp [exclusionLoop]
  | cons exp rest ih =>
    constructor
    · intro h
      simp only [exclusionLoop] at h
      cases hc : compile exp with
      | none =>
        simp only [hc] at h
        obtain ⟨e, he, hr⟩ := ih.mp h
        exact ⟨e, List.mem_cons_of_mem _ he, hr⟩
      | some r =>
        simp only [hc] at h
        by_cases hm : r msg = true
        · exact ⟨exp, List.mem_cons_self _ _, r, hc, hm⟩
        · rw [Bool.not_eq_true] at hm
          simp only [hm, Bool.false_eq_true, if_false] at h
          obtain ⟨e, he, hr⟩ := ih.mp h
          exact ⟨e, List.mem_cons_of_mem _ he, hr⟩
    · rintro ⟨e, he, r, hc, hm⟩
      simp only [exclusionLoop]
      rcases List.mem_cons.mp he with rfl | he2
      · simp [hc, hm]
      · cases hc2 : compile exp with
        | none =>
          simp only [hc2]
          exact ih.mpr ⟨e, he2, r, hc, hm⟩
        | some r2 =>
          by_cases hm2 : r2 msg = true
          · simp [hc2, hm2]
          · rw [Bool.not_eq_true] at hm2
            simp only [hc2, hm2, Bool.false_eq_true, if_false]
            exact ih.mpr ⟨e, he2, r, hc, hm⟩

/-- C2: messageIsExcluded returns true exactly when some entry of the
exclusion list compiles as a regular expression and matches the
message; an entry that fails to compile does not exclude the message
and does not abort evaluation of the remaining entries (the logged
warning is a side effect outside the model). -/
theorem messageIsExcluded_iff (compile : String → Option (String → Bool))
    (msg : String) (exclusionList : List String) :
    messageIsExcluded compile msg exclusionList = true ↔
      ∃ exp ∈ exclusionList, ∃ r, compile exp = some r ∧ r msg = true := by
  unfold messageIsExcluded
  cases exclusionList with
  | nil => simp
  | cons e rest =>
    rw [if_neg (by simp)]
    exact exclusionLoop_eq_true_iff compile msg (e :: rest)

/-- C3: the severity guard of eventMatchesAlert factors out: the match
result equals the non-severity criteria (kind, namespace, name,
matchLabels) conjoined with the severity factor, and the severity
factor is true whenever the alert severity is info, and otherwise true
exactly when the event severity equals the alert severity. -/
theorem eventMatchesAlert_severity_factorization
    (store : String → String → List (String × String))
    (event : Event) (source : CrossNamespaceObjectReference) (severity : String) :
    eventMatchesAlert store event source severity =
      (eventMatchesAlertIgnoringSeverity store event source &&
        (severity == EventSeverityInfo || event.severity == severity)) := by
  unfold eventMatchesAlert eventMatchesAlertIgnoringSeverity
  cases hA : (event.involvedObject.«namespace» != source.«namespace» ||
      event.involvedObject.kind != source.kind) <;>
    cases hS1 : (event.severity == severity) <;>
      cases hS2 : (severity == EventSeverityInfo) <;>
        cases hN : (source.name != "*" && source.name != event.involvedObject.name) <;>
          simp_all [bne]

/-- Every byte of a SHA-256 digest is below 256. -/
theorem sha256_bytes_lt (msg : List Nat) : ∀ b ∈ sha256 msg, b < 256 := by
  intro b hb
  unfold sha256 at hb
  simp only [List.mem_flatMap, List.mem_map, List.mem_range] at hb
  obtain ⟨wd, _, i, _, rfl⟩ := hb
  exact Nat.mod_lt _ (by norm_num)

/-- The lowercase hex digit map is injective on nibbles. -/
theorem hexChar_injOn : ∀ a < 16, ∀ b < 16, hexChar a = hexChar b → a = b := by decide

/-- Hex encoding is injective on byte lists. -/
theorem flatMap_hexByte_inj (bs : List Nat) :
    ∀ (cs : List Nat), (∀ b ∈ bs, b < 256) → (∀ c ∈ cs, c < 256) →
      bs.flatMap hexByte = cs.flatMap hexByte → bs = cs := by
  induction bs with
  | nil =>
    intro cs _ _ h
    cases cs with
    | nil => rfl
    | cons c cs2 => simp [hexByte] at h
  | cons b bs2 ih =>
    intro cs hb hc h
    cases cs with
    | nil => simp [hexByte] at h
    | cons c cs2 =>
      simp only [List.flatMap_cons, hexByte, List.cons_append, List.nil_append] at h
      injection h with h1 h23
      injection h23 with h2 h3
      have hb0 : b < 256 := hb b (List.mem_cons_self _ _)
      have hc0 : c < 256 := hc c (List.mem_cons_self _ _)
      have e1 : b / 16 = c / 16 := hexChar_injOn _ (by omega) _ (by omega) h1
      have e2 : b % 16 = c % 16 := hexChar_injOn _ (by omega) _ (by omega) h2
      have hbc : b = c := by omega
      have htail : bs2 = cs2 :=
        ih cs2 (fun x hx => hb x (List.mem_cons_of_mem _ hx))
          (fun x hx => hc x (List.mem_cons_of_mem _ hx)) h3
      rw [hbc, htail]

/-- String append cancels on the left. -/
theorem string_append_left_cancel (p x y : String) (h : p ++ x = p ++ y) : x = y := by
  cases p with | mk dp =>
  cases x with | mk dx =>
  cases y with | mk dy =>
  have hd : dp ++ dx = dp ++ dy := congrArg String.data h
  exact congrArg String.mk (List.append_cancel_left hd)

/-- C4 amended: GetWebhookPath is a pure function of its three inputs
through the concatenated string alone, and two paths coincide exactly
when the SHA-256 digests of the concatenations coincide; in particular
inputs with equal concatenation always collide, and digest inequality
is what separates paths. -/
theorem GetWebhookPath_eq_iff (t n s t2 n2 s2 : String) :
    GetWebhookPath t n s = GetWebhookPath t2 n2 s2 ↔
      sha256 (strBytes (t ++ n ++ s)) = sha256 (strBytes (t2 ++ n2 ++ s2)) := by
  constructor
  · intro h
    unfold GetWebhookPath webhookDigestPath hexBytes at h
    have h2 := string_append_left_cancel _ _ _ h
    have h3 : (sha256 (strBytes (t ++ n ++ s))).flatMap hexByte =
        (sha256 (strBytes (t2 ++ n2 ++ s2))).flatMap hexByte := congrArg String.data h2
    exact flatMap_hexByte_inj _ _ (sha256_bytes_lt _) (sha256_bytes_lt _) h3
  · intro h
    unfold GetWebhookPath webhookDigestPath hexBytes
    rw [h]

/-- C4 counterexample: two inputs that differ in all of the token and
name components produce the same path, because their byte-wise
concatenations coincide. -/
theorem GetWebhookPath_claim_counterexample :
    GetWebhookPath "ab" "" "" = GetWebhookPath "a" "b" "" ∧
      ("ab", "", "") ≠ (("a", "b", "") : String × String × String) :=
  ⟨congrArg webhookDigestPath (by decide), by decide⟩

/-- C5 counterexample: for a group g, the key gx starts with the group
but not with group-slash; the source keeps it unchanged while the
claimed filter drops it. -/
theorem cleanupMetadata_claim_counterexample :
    (cleanupMetadata evGx).metadata = [("gx", "y")] ∧
      cleanupMetadataSpecDescribed evGx = [] :=
  ⟨by decide, by decide⟩

/-- C5 amended: cleanupMetadata keeps exactly the entries whose key has
the group as a plain prefix (no slash required) and is not equal,
under case folding, to group/checksum; a kept key has a leading
group-slash prefix trimmed when present and is otherwise unchanged. -/
theorem cleanupMetadata_mem_iff (e : Event) (k v : String) :
    (k, v) ∈ (cleanupMetadata e).metadata ↔
      ∃ k0, (k0, v) ∈ e.metadata ∧
        hasPrefixStr k0 (groupFromAPIVersion e.involvedObject.apiVersion) = true ∧
        inList [groupFromAPIVersion e.involvedObject.apiVersion ++ "/" ++ MetaChecksumKey] k0 = false ∧
        k = trimPrefixOf k0 (groupFromAPIVersion e.involvedObject.apiVersion ++ "/") := by
  simp only [cleanupMetadata, List.mem_filterMap]
  constructor
  · rintro ⟨⟨k0, v0⟩, hmem, hf⟩
    split at hf
    case isTrue hcond =>
      rw [Option.some_inj] at hf
      obtain ⟨hk, hv⟩ := Prod.ext_iff.mp hf
      simp only [Bool.and_eq_true, Bool.not_eq_true'] at hcond
      obtain ⟨h1, h2⟩ := hcond
      subst hv
      exact ⟨k0, hmem, h1, h2, hk.symm⟩
    case isFalse => cases hf
  · rintro ⟨k0, hmem, h1, h2, rfl⟩
    exact ⟨(k0, v), hmem, by simp [h1, h2]⟩

/-- C6 counterexample: a second application of cleanupMetadata drops
the key whose group prefix the first application stripped, and a key
that repeats the group-slash prefix is kept still carrying one
group-slash prefix. -/
theorem cleanupMetadata_idempotence_counterexample :
    (cleanupMetadata (cleanupMetadata evStripped)).metadata ≠ (cleanupMetadata evStripped).metadata ∧
      (cleanupMetadata evDoubled).metadata = [("g/x", "y")] :=
  ⟨by decide, by decide⟩

/-- When no metadata key starts with the group, the cleanup filter
keeps nothing. -/
theorem cleanupMetadata_metadata_nil_of_no_prefix (e : Event)
    (h : ∀ kv ∈ e.metadata,
        hasPrefixStr kv.1 (groupFromAPIVersion e.involvedObject.apiVersion) = false) :
    (cleanupMetadata e).metadata = [] := by
  simp only [cleanupMetadata]
  rw [List.filterMap_eq_nil_iff]
  intro kv hkv
  rw [h kv hkv]
  simp

/-- C6 amended: cleanupMetadata is not idempotent; the second
application filters by the group prefix again, so whenever no key of
the first result still starts with the group (the typical case, the
group-slash prefix having been stripped), the second application
empties the metadata. -/
theorem cleanupMetadata_second_application_empties (e : Event)
    (h : ∀ kv ∈ (cleanupMetadata e).metadata,
        hasPrefixStr kv.1 (groupFromAPIVersion e.involvedObject.apiVersion) = false) :
    (cleanupMetadata (cleanupMetadata e)).metadata = [] :=
  cleanupMetadata_metadata_nil_of_no_prefix (cleanupMetadata e) h

/-- Witness for the amended C6 at the concrete stripped event. -/
theorem cleanupMetadata_second_application_empties_witness :
    (cleanupMetadata (cleanupMetadata evStripped)).metadata = [] :=
  cleanupMetadata_second_application_empties evStripped (by decide)

/-- C7 counterexample: the reason testsucceeded yields a
TestCaseRunFinished payload, not the claimed TaskRunFinished; and the
reason testfailed has its own branch yielding TestCaseRunFinished, not
the claimed default IncidentDetected. -/
theorem cdevents_reason_mapping_counterexample :
    (cdeventsMakePayload evTestSucceeded).eventType ≠ CDEventType.TaskRunFinished ∧
      (cdeventsMakePayload evTestFailed).eventType ≠ CDEventType.IncidentDetected :=
  ⟨by decide, by decide⟩

/-- C7 amended: CDEvents.Post maps the lower-cased reason as follows:
installsucceeded to EnvironmentModified; upgradesucceeded and
rollbacksucceeded to TaskRunFinished with outcome Success;
upgradefailed, rollbackfailed and driftdetected to TaskRunFinished
with outcome Failure; testsucceeded and testfailed both to
TestCaseRunFinished with outcome Success; reconciliationsucceeded to
ServiceDeployed with the subject artifact id and environment reference
taken from the involved object; every other reason to
IncidentDetected; and the payload source is name.kind and its subject
id the involved-object UID. -/
theorem cdevents_payload_mapping (e : Event) :
    (strToLower e.reason = "installsucceeded" →
      (cdeventsMakePayload e).eventType = CDEventType.EnvironmentModified) ∧
    (strToLower e.reason = "upgradesucceeded" →
      (cdeventsMakePayload e).eventType = CDEventType.TaskRunFinished ∧
        (cdeventsMakePayload e).subjectOutcome = some "Success") ∧
    (strToLower e.reason = "upgradefailed" →
      (cdeventsMakePayload e).eventType = CDEventType.TaskRunFinished ∧
        (cdeventsMakePayload e).subjectOutcome = some "Failure") ∧
    (strToLower e.reason = "testsucceeded" →
      (cdeventsMakePayload e).eventType = CDEventType.TestCaseRunFinished ∧
        (cdeventsMakePayload e).subjectOutcome = some "Success") ∧
    (strToLower e.reason = "testfailed" →
      (cdeventsMakePayload e).eventType = CDEventType.TestCaseRunFinished ∧
        (cdeventsMakePayload e).subjectOutcome = some "Success") ∧
    (strToLower e.reason = "rollbacksucceeded" →
      (cdeventsMakePayload e).eventType = CDEventType.TaskRunFinished ∧
        (cdeventsMakePayload e).subjectOutcome = some "Success") ∧
    (strToLower e.reason = "rollbackfailed" →
      (cdeventsMakePayload e).eventType = CDEventType.TaskRunFinished ∧
        (cdeventsMakePayload e).subjectOutcome = some "Failure") ∧
    (strToLower e.reason = "driftdetected" →
      (cdeventsMakePayload e).eventType = CDEventType.TaskRunFinished ∧
        (cdeventsMakePayload e).subjectOutcome = some "Failure") ∧
    (strToLower e.reason = "reconciliationsucceeded" →
      (cdeventsMakePayload e).eventType = CDEventType.ServiceDeployed ∧
        (cdeventsMakePayload e).subjectArtifactId = some e.involvedObject.uid ∧
        (cdeventsMakePayload e).subjectEnvironment =
          some (e.involvedObject.uid, e.involvedObject.name)) ∧
    (strToLower e.reason ∉ ["installsucceeded", "upgradesucceeded", "upgradefailed",
        "testsucceeded", "testfailed", "rollbacksucceeded", "rollbackfailed",
        "driftdetected", "reconciliationsucceeded"] →
      (cdeventsMakePayload e).eventType = CDEventType.IncidentDetected) ∧
    (cdeventsMakePayload e).source = e.involvedObject.name ++ "." ++ e.involvedObject.kind ∧
    (cdeventsMakePayload e).subjectId = e.involvedObject.uid := by
  refine ⟨?_, ?_, ?_, ?_, ?_, ?_, ?_, ?_, ?_, ?_, ?_, ?_⟩
  case _ => intro h; simp [cdeventsMakePayload, h]
  case _ => intro h; simp [cdeventsMakePayload, h]
  case _ => intro h; simp [cdeventsMakePayload, h]
  case _ => intro h; simp [cdeventsMakePayload, h]
  case _ => intro h; simp [cdeventsMakePayload, h]
  case _ => intro h; simp [cdeventsMakePayload, h]
  case _ => intro h; simp [cdeventsMakePayload, h]
  case _ => intro h; simp [cdeventsMakePayload, h]
  case _ => intro h; simp [cdeventsMakePayload, h]
  case _ =>
    intro h
    simp only [List.mem_cons, List.not_mem_nil, or_false, not_or] at h
    obtain ⟨h1, h2, h3, h4, h5, h6, h7, h8, h9⟩ := h
    simp [cdeventsMakePayload, h1, h2, h3, h4, h5, h6, h7, h8, h9]
  case _ => simp [cdeventsMakePayload]
  case _ => simp [cdeventsMakePayload]

/-- Witness for the amended C7 at the concrete TestSucceeded event. -/
theorem cdevents_payload_mapping_witness :
    strToLower evTestSucceeded.reason = "testsucceeded" ∧
      ((cdeventsMakePayload evTestSucceeded).eventType = CDEventType.TestCaseRunFinished ∧
        (cdeventsMakePayload evTestSucceeded).subjectOutcome = some "Success") :=
  ⟨by decide, (cdevents_payload_mapping evTestSucceeded).2.2.2.1 (by decide)⟩

/-- C9: CDEvents.Post returns nil for every event and every outcome of
the underlying send, because err1 is never assigned and the error
guard requires both err and err1 to be non-nil. -/
theorem cdeventsPostResult_always_none (event : Event) (postErr : Option String) :
    cdeventsPostResult event postErr = none := by
  simp [cdeventsPostResult]

/-- The password step never modifies the webhook address. -/
theorem overlayPassword_webhook (data : List (String × String)) (st : SecretOverlay) :
    (overlayPassword data st).webhook = st.webhook := by
  unfold overlayPassword; split <;> rfl

/-- The token step never modifies the webhook address. -/
theorem overlayToken_webhook (data : List (String × String)) (st : SecretOverlay) :
    (overlayToken data st).webhook = st.webhook := by
  unfold overlayToken; split <;> rfl

/-- The username step never modifies the webhook address. -/
theorem overlayUsername_webhook (data : List (String × String)) (st : SecretOverlay) :
    (overlayUsername data st).webhook = st.webhook := by
  unfold overlayUsername; split <;> rfl

/-- The proxy step never modifies the webhook address. -/
theorem overlayProxy_ok_webhook (u : String → Bool) (data : List (String × String))
    (st r : SecretOverlay) (h : overlayProxy u data st = Except.ok r) :
    r.webhook = st.webhook := by
  unfold overlayProxy at h
  split at h
  · split at h
    · cases h; rfl
    · cases h
  · cases h; rfl

/-- The headers step never modifies the webhook address. -/
theorem overlayHeaders_ok_webhook (y : String → Option (List (String × String)))
    (data : List (String × String)) (st r : SecretOverlay)
    (h : overlayHeaders y data st = Except.ok r) : r.webhook = st.webhook := by
  unfold overlayHeaders at h
  split at h
  · split at h
    · cases h; rfl
    · cases h
  · cases h; rfl

/-- When the secret carries no address key, a successful overlay keeps
the initial webhook address. -/
theorem overlayFromSecret_ok_webhook (u : String → Bool)
    (y : String → Option (List (String × String)))
    (data : List (String × String)) (init st : SecretOverlay)
    (haddr : lookupVal data "address" = none)
    (h : overlayFromSecret u y data init = Except.ok st) :
    st.webhook = init.webhook := by
  unfold overlayFromSecret at h
  have ha : overlayAddress u data init = Except.ok init := by
    unfold overlayAddress; rw [haddr]
  simp only [ha] at h
  cases hpx : overlayProxy u data (overlayPassword data init) with
  | error e =>
    rw [hpx] at h
    simp at h
  | ok s3 =>
    simp only [hpx] at h
    have h1 := overlayHeaders_ok_webhook y data _ _ h
    rw [h1, overlayUsername_webhook, overlayToken_webhook,
      overlayProxy_ok_webhook u data _ _ hpx, overlayPassword_webhook]

/-- When no referenced secret supplies an address key, a successful
secret phase keeps the provider spec address as the webhook. -/
theorem secretPhase_ok_webhook (getSecret : String → String → Option (List (String × String)))
    (u : String → Bool) (y : String → Option (List (String × String)))
    (provider : Provider) (st : SecretOverlay)
    (hnoaddr : ∀ refName data, provider.spec.secretRef = some refName →
      getSecret provider.«namespace» refName = some data → lookupVal data "address" = none)
    (h : secretPhase getSecret u y provider = Except.ok st) :
    st.webhook = provider.spec.address := by
  unfold secretPhase at h
  cases href : provider.spec.secretRef with
  | none =>
    simp only [href] at h
    cases h
    rfl
  | some refName =>
    simp only [href] at h
    cases hsec : getSecret provider.«namespace» refName with
    | none =>
      rw [hsec] at h
      simp at h
    | some data =>
      simp only [hsec] at h
      exact overlayFromSecret_ok_webhook u y data _ st (hnoaddr refName data href hsec) h

/-- C8: for every provider whose spec address is empty and whose
referenced secret, when readable, supplies no address key,
createNotifier returns an error and no notifier is produced, on every
path through the secret, certificate and factory phases. -/
theorem createNotifier_no_address_error {N : Type}
    (factory : String → NotifierConfig → Except String N)
    (getSecret : String → String → Option (List (String × String)))
    (urlParseOk : String → Bool)
    (yamlHeaders : String → Option (List (String × String)))
    (certAppendOk : String → Bool)
    (provider : Provider)
    (h1 : provider.spec.address = "")
    (h2 : ∀ refName data, provider.spec.secretRef = some refName →
      getSecret provider.«namespace» refName = some data → lookupVal data "address" = none) :
    ∃ msg, createNotifier factory getSecret urlParseOk yamlHeaders certAppendOk provider =
      Except.error msg := by
  unfold createNotifier
  cases hs : secretPhase getSecret urlParseOk yamlHeaders provider with
  | error e => exact ⟨e, rfl⟩
  | ok st =>
    cases hc : resolveCertPool getSecret certAppendOk provider.«namespace»
        provider.spec.certSecretRef with
    | error e => exact ⟨e, rfl⟩
    | ok cp =>
      have hw : st.webhook = "" := (secretPhase_ok_webhook getSecret _ _ provider st h2 hs).trans h1
      refine ⟨"provider has no address", ?_⟩
      simp [hw]

/-- Witness for C8 at a concrete provider with empty address and no
secret reference. -/
theorem createNotifier_no_address_error_witness :
    ∃ msg, createNotifier factoryAcceptAll getSecretNone (fun _ => true) (fun _ => none)
      (fun _ => true) providerNoAddress = Except.error msg :=
  createNotifier_no_address_error factoryAcceptAll getSecretNone (fun _ => true) (fun _ => none)
    (fun _ => true) providerNoAddress rfl
    (fun refName data href _ => by
      rw [show providerNoAddress.spec.secretRef = none from rfl] at href
      cases href)

/-- C10: once the body has been read and decoded, a failure listing the
alerts from the store is only logged: the handler treats the event as
having no matching alerts and still answers 202 Accepted, never a 4xx
or 5xx status. -/
theorem handleEvent_list_failure_accepted
    (compile : String → Option (String → Bool))
    (store : String → String → List (String × String))
    (body : Except String String) (decode : String → Except String Event)
    (listResult : Except String (List Alert)) (b : String) (ev : Event) (e : String)
    (hb : body = Except.ok b) (hd : decode b = Except.ok ev)
    (hl : listResult = Except.error e) :
    handleEvent compile store body decode listResult = (statusAccepted, []) := by
  subst hb hl
  unfold handleEvent
  simp [hd, getAllAlertsForEvent]

/-- Witness for C10 at a concrete decoded event and a failing store. -/
theorem handleEvent_list_failure_accepted_witness :
    handleEvent compileNone storeEmpty (Except.ok "{}") decodeSample (Except.error "boom") =
      (statusAccepted, []) :=
  handleEvent_list_failure_accepted compileNone storeEmpty (Except.ok "{}") decodeSample
    (Except.error "boom") "{}" sampleEvent "boom" rfl rfl rfl
